import Mathlib

/-!
Shallow embedding of the GEPA optimization core of the evaluizer repository:
`backend/app/services/gepa_service.py`, `backend/app/services/gepa_progress.py`,
`backend/app/utils.py` and the run endpoint in
`backend/app/api/v1/endpoints/gepa.py`.

Modelling conventions:
* Python `float` scores are modelled as exact rationals `ℚ` (the claims are
  about the algorithmic structure of score aggregation, not IEEE rounding).
* Python dicts keyed by strings become association lists.
* Stateful code (the process-wide progress store, the adapter's
  `_evaluation_count`) is explicit state passing.
* Fallible calls (template rendering, LLM completion, judge / function
  scorers, `gepa.optimize`, the database commit) are `Except String _`
  oracles supplied through environment records; the embedding keeps the
  surrounding control flow of the source.
* Wall-clock timestamps (`updated_at`, `started_at`) are omitted from the
  progress record: no claim mentions them.
* `asyncio.gather` returns results in task-submission order (its documented
  contract); it is therefore embedded as `List.map`.
-/

namespace Evaluizer

/-- Python `str.strip()`: drop whitespace from both ends.  (Implemented
with structural recursion so that concrete scenarios reduce inside the
kernel; `String.trim` itself is defined by well-founded recursion.) -/
def pyStrip (s : String) : String :=
  ⟨((s.data.dropWhile Char.isWhitespace).reverse.dropWhile Char.isWhitespace).reverse⟩

/-- Python truthiness of an optional integer (`None` and `0` are falsy). -/
def pyTruthyNat : Option Nat → Bool
  | none => false
  | some n => n != 0

/-- A flat string-keyed row mapping (`row_data`). -/
abbrev RowData := List (String × String)

/-- `d.get(k)` on a string-keyed dict. -/
def lookupStr (m : List (String × String)) (k : String) : Option String :=
  (m.find? (fun kv => kv.1 == k)).map (·.2)

/-! ## Progress tracker (`gepa_progress.py`) -/

/-- One entry of the process-wide progress store.  Field defaults mirror the
record `update_progress` creates when the key is absent. -/
structure ProgressRecord where
  status : String := "running"
  current_iteration : Nat := 0
  max_iterations : Nat := 0
  current_score : Option ℚ := none
  best_score : Option ℚ := none
  message : String := ""
  new_prompt_id : Option Nat := none
deriving DecidableEq

/-- The module-level `_progress_store` dict, keyed by config id. -/
abbrev ProgressStore := List (Nat × ProgressRecord)

def store_get (s : ProgressStore) (id : Nat) : Option ProgressRecord :=
  (s.find? (fun kv => kv.1 == id)).map (·.2)

def store_set (s : ProgressStore) (id : Nat) (r : ProgressRecord) : ProgressStore :=
  s.filter (fun kv => kv.1 != id) ++ [(id, r)]

/-- `update_progress(config_id, **kwargs)`: create the default record when
absent, then merge the supplied fields (the merge is the function `f`). -/
def update_progress (s : ProgressStore) (id : Nat) (f : ProgressRecord → ProgressRecord) : ProgressStore :=
  store_set s id (f ((store_get s id).getD {}))

/-- `get_progress(config_id)`. -/
def get_progress (s : ProgressStore) (id : Nat) : Option ProgressRecord :=
  store_get s id

/-- `clear_progress(config_id)`. -/
def clear_progress (s : ProgressStore) (id : Nat) : ProgressStore :=
  s.filter (fun kv => kv.1 != id)

/-- `set_error(config_id, error_message)`. -/
def set_error (s : ProgressStore) (id : Nat) (msg : String) : ProgressStore :=
  update_progress s id (fun r => { r with status := "error", message := msg })

/-- `set_complete(config_id, final_score, message, new_prompt_id)`. -/
def set_complete (s : ProgressStore) (id : Nat) (score : ℚ) (msg : String) (newId : Option Nat) : ProgressStore :=
  update_progress s id (fun r =>
    { r with status := "completed", best_score := some score, message := msg, new_prompt_id := newId })

/-! ## Evaluation adapter (`EvalsBackedAdapter`) -/

/-- A judge scorer config row (only the fields the adapter reads). -/
structure JudgeConfig where
  id : Nat
  name : String
deriving DecidableEq

/-- A function-eval scorer config row (only the fields the adapter reads). -/
structure FunctionEvalConfig where
  id : Nat
  name : String
  function_name : String
  config : String
deriving DecidableEq

/-- One input item handed to `evaluate` (built in `run_gepa` from a CSV row). -/
structure Item where
  row_data : RowData
  csv_row_id : Nat
deriving DecidableEq

/-- Oracles for the external calls the adapter makes.  Each models the full
outcome of the corresponding service call: `.error` is a raised exception
(for `run_function_evaluation` this also covers a result dict without a
`"score"` key and a non-numeric score, both of which raise in the source). -/
structure LlmEnv where
  render_prompt : String → RowData → List String → Except String String
  chat_completion : String → String → String → ℚ → Nat → Except String String
  run_judge_evaluation : JudgeConfig → RowData → String → List String → Except String ℚ
  run_function_evaluation : String → RowData → String → String → Except String ℚ

/-- The adapter's constructor-time fields (`db`, `gepa_config`, `csv_file`
carry no behaviour in the adapter beyond `config_id`). -/
structure EvalsBackedAdapter where
  available_columns : List String
  judge_configs : List JudgeConfig
  function_eval_configs : List FunctionEvalConfig
  generator_model : String
  generator_temperature : ℚ
  generator_max_tokens : Nat
  user_message_column : Option String
  config_id : Nat

/-- Python's `"%.3f"` score formatting, abstracted (no claim depends on the
exact digits, only on which fragment a scorer contributes). -/
def fmt3 (q : ℚ) : String := toString q

/-- `EvalsBackedAdapter._generate_output`: render the template, resolve the
user message column, call the chat completion, reject empty output. -/
def generate_output (env : LlmEnv) (A : EvalsBackedAdapter)
    (system_prompt : String) (row_data : RowData) (user_message_column : Option String) :
    Except String String :=
  match env.render_prompt system_prompt row_data A.available_columns with
  | .error e => .error e
  | .ok rendered =>
    if pyStrip rendered = "" then
      .error ("Rendered system prompt is empty. Original prompt: " ++ system_prompt)
    else
      let userMsgRes : Except String String :=
        match user_message_column with
        | none => .ok ""
        | some col =>
          -- `if user_message_column:` — the empty string is falsy too
          if col = "" then .ok ""
          else if ¬ A.available_columns.contains col then
            .error ("User message column " ++ col ++ " not found in available columns")
          else
            let um := (lookupStr row_data col).getD ""
            if pyStrip um = "" then
              .error ("User message column " ++ col ++ " is empty for this row")
            else .ok um
      match userMsgRes with
      | .error e => .error e
      | .ok user_message =>
        match env.chat_completion rendered user_message A.generator_model
            A.generator_temperature A.generator_max_tokens with
        | .error e => .error e
        | .ok output =>
          if output = "" then
            .error ("LLM returned empty output for system prompt: " ++ rendered)
          else .ok (pyStrip output)

/-- A captured trajectory (the non-empty trajectory dict).  The empty dict
`{}` produced for generation failures / `capture_traces=False` is modelled
as `none` in `SingleResult.trajectory`. -/
structure Trajectory where
  inputs : Item
  generated_output : String
  combined : ℚ
  by_grader : List (String × ℚ)
  feedback : String
deriving DecidableEq

/-- The 4-tuple returned by `_evaluate_single_item`. -/
structure SingleResult where
  output : String
  score : ℚ
  trajectory : Option Trajectory
  feedback : String
deriving DecidableEq

/-- `EvalsBackedAdapter._evaluate_single_item`: generate, then run every
judge scorer (concurrently — `asyncio.gather` keeps declaration order) and
every function scorer, fault-isolating each scorer to a `0.0` contribution. -/
def evaluate_single_item (env : LlmEnv) (A : EvalsBackedAdapter)
    (item : Item) (system_prompt : String) (capture_traces : Bool) : SingleResult :=
  match generate_output env A system_prompt item.row_data A.user_message_column with
  | .error e =>
    { output := "", score := 0, trajectory := none, feedback := "Generation failed: " ++ e }
  | .ok summary =>
    if summary = "" ∨ pyStrip summary = "" then
      { output := "", score := 0, trajectory := none, feedback := "Generation returned empty output" }
    else
      let judge_results := A.judge_configs.map (fun jc =>
        match env.run_judge_evaluation jc item.row_data summary A.available_columns with
        | .ok score => ("judge_" ++ jc.name, score, jc.name ++ ": " ++ fmt3 score)
        | .error e => ("judge_" ++ jc.name, (0 : ℚ), jc.name ++ ": failed (" ++ e ++ ")"))
      let function_results := A.function_eval_configs.map (fun fc =>
        match env.run_function_evaluation fc.function_name item.row_data summary fc.config with
        | .ok score => ("function_" ++ fc.name, score, fc.name ++ ": " ++ fmt3 score)
        | .error e => ("function_" ++ fc.name, (0 : ℚ), fc.name ++ ": failed (" ++ e ++ ")"))
      let graded := judge_results ++ function_results
      let all_scores := graded.map (fun g => g.2.1)
      let feedback_parts := graded.map (fun g => g.2.2)
      let scalar : ℚ := if all_scores.isEmpty then 0 else all_scores.sum / all_scores.length
      let feedback :=
        if feedback_parts.isEmpty then "All graders passed; keep precision and coverage."
        else String.intercalate "; " feedback_parts
      let traj : Option Trajectory :=
        if capture_traces then
          some { inputs := item, generated_output := summary, combined := scalar,
                 by_grader := graded.map (fun g => (g.1, g.2.1)), feedback := feedback }
        else none
      { output := summary, score := scalar, trajectory := traj, feedback := feedback }

/-- The `EvaluationBatch` returned by `evaluate`. -/
structure EvaluationBatch where
  scores : List ℚ
  outputs : List String
  trajectories : List Trajectory
deriving DecidableEq

/-- `EvalsBackedAdapter.evaluate`.  State passed explicitly: the adapter's
`_evaluation_count` and the progress store (both are only written, never
branch the scoring).  `candidate["system_prompt"]` raises `KeyError` when the
key is absent — the one batch-level failure of this method. -/
def EvalsBackedAdapter.evaluate (env : LlmEnv) (A : EvalsBackedAdapter)
    (inputs : List Item) (candidate : List (String × String)) (capture_traces : Bool)
    (eval_count : Nat) (store : ProgressStore) :
    (Nat × ProgressStore) × Except String EvaluationBatch :=
  match lookupStr candidate "system_prompt" with
  | none => ((eval_count, store), .error "KeyError: system_prompt")
  | some system_prompt =>
    let count := eval_count + 1
    let s1 := update_progress store A.config_id (fun r =>
      { r with message := "Evaluating candidate " ++ toString count ++ " on " ++
                 toString inputs.length ++ " examples...",
               current_iteration := count })
    let results := inputs.map (fun it => evaluate_single_item env A it system_prompt capture_traces)
    let scores := results.map (·.score)
    let outputs := results.map (·.output)
    -- `if capture_traces and trajectory:` — empty trajectories are dropped
    let trajectories := results.filterMap (·.trajectory)
    let all_feedback := results.filterMap (fun r => if r.feedback = "" then none else some r.feedback)
    let avg_score : ℚ := if scores.isEmpty then 0 else scores.sum / scores.length
    let s2 :=
      if avg_score = 0 ∧ all_feedback ≠ [] then
        update_progress s1 A.config_id (fun r =>
          { r with current_score := some avg_score,
                   message := "Completed evaluation of " ++ toString inputs.length ++
                     " examples (avg score: " ++ fmt3 avg_score ++ "). Issues: " ++
                     (String.intercalate "; " (all_feedback.take 3)).take 200 ++ "..." })
      else
        update_progress s1 A.config_id (fun r =>
          { r with current_score := some avg_score,
                   message := "Completed evaluation of " ++ toString inputs.length ++
                     " examples (avg score: " ++ fmt3 avg_score ++ ")" })
    ((count, s2), .ok { scores := scores, outputs := outputs, trajectories := trajectories })

/-! ## Prompt versioning utilities (`utils.py`) -/

/-- A row of the `prompts` table (the fields the GEPA core reads). -/
structure Prompt where
  id : Nat
  name : String
  system_prompt : String
  user_message_column : Option String
  csv_file_id : Nat
  parent_prompt_id : Option Nat
  version : Nat
  commit_message : String := ""
deriving DecidableEq

/-- `db.query(Prompt).filter(Prompt.id == i).first()`. -/
def find_prompt (db : List Prompt) (i : Nat) : Option Prompt :=
  db.find? (fun p => p.id == i)

/-- Phase 1 of `get_root_prompt_id`: the chain-building `while` loop.
`ids` is `ids_in_chain`, `current_parent` is the (truthy) `current_parent_id`,
and the fuel is `max_depth - len(ids_in_chain)` (the loop guard
`len(ids_in_chain) < max_depth` with `max_depth = 100`).  `.inl r` is the
early `return` on a detected circular reference. -/
def root_chain_ids (db : List Prompt) (ids : List Nat) (current_parent : Nat) :
    Nat → Sum Nat (List Nat)
  | 0 => .inr ids
  | fuel+1 =>
    if ids.contains current_parent then .inl (ids.headD 0)
    else
      let ids' := ids ++ [current_parent]
      match find_prompt db current_parent with
      | none => .inr ids'
      | some parent =>
        if pyTruthyNat parent.parent_prompt_id then
          root_chain_ids db ids' (parent.parent_prompt_id.getD 0) fuel
        else .inr ids'

/-- Phase 2 of `get_root_prompt_id`: the `while current_id in prompt_map`
loop over the prefetched `prompt_map`, with the `visited` cycle check.  The
source loop has no explicit fuel; it terminates because every iteration adds
a `prompt_map` key to `visited`.  The fuel `prompt_map.length + 1` chosen at
the call site is provably sufficient (see the claim-C10 theorem). -/
def root_scan (pmap : List Prompt) (visited : List Nat) (current : Nat) : Nat → Nat
  | 0 => current
  | fuel+1 =>
    match find_prompt pmap current with
    | none => current
    | some cur =>
      if visited.contains current then current
      else if pyTruthyNat cur.parent_prompt_id then
        root_scan pmap (current :: visited) (cur.parent_prompt_id.getD 0) fuel
      else current

/-- `get_root_prompt_id(db, prompt_id)`. -/
def get_root_prompt_id (db : List Prompt) (prompt_id : Nat) : Nat :=
  match find_prompt db prompt_id with
  | none => prompt_id
  | some prompt =>
    if pyTruthyNat prompt.parent_prompt_id then
      match root_chain_ids db [prompt_id] (prompt.parent_prompt_id.getD 0) 99 with
      | .inl r => r
      | .inr ids_in_chain =>
        let prompt_map := db.filter (fun p => ids_in_chain.contains p.id)
        root_scan prompt_map [] prompt_id (prompt_map.length + 1)
    else prompt_id

/-- `get_next_prompt_version(db, root_prompt_id)`: SQL
`max(version) WHERE parent_prompt_id == root OR id == root`, `or 0`, `+ 1`. -/
def get_next_prompt_version (db : List Prompt) (root_prompt_id : Nat) : Nat :=
  let versions := (db.filter (fun p =>
    p.parent_prompt_id == some root_prompt_id || p.id == root_prompt_id)).map (·.version)
  versions.foldr max 0 + 1

/-! ## Optimization driver (`run_gepa`) -/

/-- A `gepa_configs` row (the fields `run_gepa` reads; `base_prompt_id` is
a non-nullable column, the source's `if not gepa_config.base_prompt_id`
falsiness check is the `= 0` test). -/
structure GepaConfig where
  id : Nat
  name : String
  csv_file_id : Nat
  base_prompt_id : Nat
  judge_config_ids : List Nat
  function_eval_config_ids : List Nat
  generator_model : String
  reflection_model : String
  generator_temperature : ℚ
  generator_max_tokens : Nat
  max_metric_calls : Nat
deriving DecidableEq

/-- A `csv_files` row: `columns` holds the already-parsed column list
(`parse_json_safe(csv_file.columns, [])`). -/
structure CSVFile where
  id : Nat
  columns : List String
deriving DecidableEq

/-- A `csv_rows` row: `row_data` holds the already-parsed mapping
(`parse_json_safe(row.row_data, {})`). -/
structure CSVRow where
  id : Nat
  row_data : RowData
deriving DecidableEq

/-- The object returned by `gepa.optimize`: `best_candidate` and `candidate`
are optional string dicts (`none` models both a missing attribute and
`None`). -/
structure GepaResult where
  best_candidate : Option (List (String × String))
  candidate : Option (List (String × String))
deriving DecidableEq

/-- Lines 438—448 of `gepa_service.py`: read
`result.best_candidate.get("system_prompt", "")` when `best_candidate` is
truthy, falling back to `result.candidate` when the text so far is falsy. -/
def choose_best_prompt (res : GepaResult) : String :=
  let bp1 :=
    match res.best_candidate with
    | some d => if d.isEmpty then "" else (lookupStr d "system_prompt").getD ""
    | none => ""
  if bp1 ≠ "" then bp1
  else
    match res.candidate with
    | some d => if d.isEmpty then "" else (lookupStr d "system_prompt").getD ""
    | none => ""

/-- `adapter.evaluate(...)` as invoked with a possibly-`None` candidate:
`candidate["system_prompt"]` on `None` raises `TypeError` before anything
else happens. -/
def evaluate_call (env : LlmEnv) (A : EvalsBackedAdapter) (inputs : List Item)
    (candidate : Option (List (String × String))) (capture_traces : Bool)
    (eval_count : Nat) (store : ProgressStore) :
    (Nat × ProgressStore) × Except String EvaluationBatch :=
  match candidate with
  | none => ((eval_count, store), .error "TypeError: NoneType object is not subscriptable")
  | some c => EvalsBackedAdapter.evaluate env A inputs c capture_traces eval_count store

/-- The new `Prompt` object constructed by `run_gepa` before `db.add` (no id
yet — the database assigns it on commit). -/
structure NewPrompt where
  name : String
  system_prompt : String
  user_message_column : Option String
  csv_file_id : Nat
  parent_prompt_id : Option Nat
  version : Nat
  commit_message : String
deriving DecidableEq

/-- Everything `run_gepa` obtains from outside: database query results, the
LLM-call oracles, the outcome of the external `gepa.optimize` search, and
the persistence layer.  `shuffled_rows` is the content of `all_rows` after
`random.shuffle` (a permutation chosen by the random source).  `persist`
models `db.add`+`commit`+`refresh` followed by the read-back query: `.error`
is a commit failure, `.ok (new_id, read_back)` gives the assigned id and
what re-querying that id returns (`none` or a possibly-corrupted record). -/
structure RunEnv where
  llm : LlmEnv
  csv_file : Option CSVFile
  prompts : List Prompt
  judge_configs : List JudgeConfig
  function_eval_configs : List FunctionEvalConfig
  all_rows : List CSVRow
  shuffled_rows : List CSVRow
  optimize_result : Except String GepaResult
  persist : NewPrompt → Except String (Nat × Option Prompt)

/-- The dict `run_gepa` returns on success. -/
structure RunResult where
  best_prompt : String
  new_prompt_id : Nat
  score : ℚ
  logs : String
deriving DecidableEq

/-- `sum(scores) / len(scores) if scores else 0.0`. -/
def mean_scores (l : List ℚ) : ℚ :=
  if l.isEmpty then 0 else l.sum / l.length

/-- `val_cut = max(1, int(0.2 * len(all_rows)))` (`int(0.2*n)` truncates;
the float product is modelled exactly as `n / 5`). -/
def val_cut_of (n : Nat) : Nat := max 1 (n / 5)

/-- The `new_prompt = Prompt(...)` construction (lines 488—496): name
inherited from the root prompt, `user_message_column` from the *base*
prompt, parented to the root, next version in the root's chain. -/
def mk_new_prompt (root_prompt : Prompt) (root_prompt_id version : Nat)
    (cfg : GepaConfig) (csv_file_id : Nat) (base_prompt : Prompt)
    (optimized_content : String) (best_score : ℚ) : NewPrompt :=
  { name := root_prompt.name,
    system_prompt := optimized_content,
    user_message_column := base_prompt.user_message_column,
    csv_file_id := csv_file_id,
    parent_prompt_id := some root_prompt_id,
    version := version,
    commit_message := "GEPA optimized via " ++ cfg.name ++ " (eval score: " ++ fmt3 best_score ++ ")" }

/-- Lines 473—528: the persisting tail of `run_gepa` (outside the
`try/except`: every failure here re-raises without touching progress). -/
def persist_phase (env : RunEnv) (cfg : GepaConfig) (csv_file_id : Nat)
    (base_prompt : Prompt) (best_prompt : String) (best_score : ℚ)
    (s : ProgressStore) : ProgressStore × Except String RunResult :=
  let root_prompt_id := get_root_prompt_id env.prompts cfg.base_prompt_id
  match find_prompt env.prompts root_prompt_id with
  | none => (s, .error ("Root prompt " ++ toString root_prompt_id ++ " not found"))
  | some root_prompt =>
    let version := get_next_prompt_version env.prompts root_prompt_id
    let optimized_content := pyStrip best_prompt
    let new_prompt := mk_new_prompt root_prompt root_prompt_id version cfg csv_file_id
      base_prompt optimized_content best_score
    match env.persist new_prompt with
    | .error e => (s, .error ("Failed to save optimized prompt to database: " ++ e))
    | .ok (new_prompt_id, read_back) =>
      match read_back with
      | none => (s, .error "Failed to retrieve saved prompt from database")
      | some saved_prompt =>
        if saved_prompt.system_prompt ≠ optimized_content then
          (s, .error "Failed to save optimized prompt content correctly - content mismatch detected")
        else
          let s' := set_complete s cfg.id best_score
            ("Optimization completed. Best score: " ++ fmt3 best_score ++
             ". Created prompt version " ++ toString version ++ ".") (some new_prompt_id)
          (s', .ok { best_prompt := best_prompt, new_prompt_id := new_prompt_id,
                     score := best_score,
                     logs := "Optimization completed. Best score: " ++ fmt3 best_score })

/-- Lines 330—371 of `gepa_service.py`: the `validating` step of `run_gepa`
(CSV lookup, required base prompt with non-empty `system_prompt`, the two
scorer-config queries with the at-least-one-scorer check, the non-empty
rows check).  Returns what the later steps consume. -/
def validate_phase (env : RunEnv) (cfg : GepaConfig) (csv_file_id : Nat) :
    Except String (CSVFile × Prompt × List JudgeConfig × List FunctionEvalConfig) :=
  match env.csv_file with
  | none => .error ("CSV file " ++ toString csv_file_id ++ " not found")
  | some csv_file =>
    if cfg.base_prompt_id = 0 then
      .error "Base prompt is required for GEPA optimization. Please select a prompt to optimize."
    else
      match find_prompt env.prompts cfg.base_prompt_id with
      | none => .error ("Base prompt " ++ toString cfg.base_prompt_id ++ " not found")
      | some base_prompt =>
        if base_prompt.system_prompt = "" then
          .error ("Base prompt " ++ toString cfg.base_prompt_id ++ " has no system_prompt")
        else
          let judge_configs := if cfg.judge_config_ids.isEmpty then [] else env.judge_configs
          let function_eval_configs :=
            if cfg.function_eval_config_ids.isEmpty then [] else env.function_eval_configs
          if judge_configs.isEmpty ∧ function_eval_configs.isEmpty then
            .error "At least one judge config or function eval config must be provided"
          else if env.all_rows.isEmpty then
            .error ("No rows found for CSV file " ++ toString csv_file_id)
          else .ok (csv_file, base_prompt, judge_configs, function_eval_configs)

/-- The `EvalsBackedAdapter(...)` construction in `run_gepa` (lines
396—412), including the falsy-fallback handling of temperature and
max-tokens. -/
def adapter_of (cfg : GepaConfig) (csv_file : CSVFile) (base_prompt : Prompt)
    (judge_configs : List JudgeConfig) (function_eval_configs : List FunctionEvalConfig) :
    EvalsBackedAdapter :=
  let generator_temp :=
    if cfg.generator_temperature = 0 then 1 else cfg.generator_temperature
  let generator_tokens :=
    if cfg.generator_max_tokens = 0 then 16384 else cfg.generator_max_tokens
  { available_columns := csv_file.columns,
    judge_configs := judge_configs,
    function_eval_configs := function_eval_configs,
    generator_model := cfg.generator_model,
    generator_temperature := generator_temp,
    generator_max_tokens := if generator_tokens > 0 then generator_tokens else 2000,
    user_message_column := base_prompt.user_message_column,
    config_id := cfg.id }

/-- The validation subset in GEPA item format (lines 374—394):
`all_rows[:val_cut]` after the shuffle.  (`all_rows[val_cut:]` is the train
set, handed only to `gepa.optimize`.) -/
def valset_of (env : RunEnv) : List Item :=
  (env.shuffled_rows.take (val_cut_of env.shuffled_rows.length)).map
    (fun row => Item.mk row.row_data row.id)

/-- `run_gepa(db, gepa_config, csv_file_id)`.  `.error` is a raised
exception escaping to the caller.  The progress-store mutations internal to
the `adapter.evaluate` calls made by `gepa.optimize` itself are folded into
the opaque `optimize_result` oracle (they only touch `current_iteration`,
`current_score` and `message`, and the final-validation `evaluate` here runs
with the count restarted — the count feeds only progress messages). -/
def run_gepa (env : RunEnv) (cfg : GepaConfig) (csv_file_id : Nat)
    (store : ProgressStore) : ProgressStore × Except String RunResult :=
  let config_id := cfg.id
  let s1 := update_progress (clear_progress store config_id) config_id (fun r =>
    { r with status := "running", current_iteration := 0,
             max_iterations := cfg.max_metric_calls,
             message := "Starting GEPA optimization..." })
  match validate_phase env cfg csv_file_id with
  | .error e => (s1, .error e)
  | .ok (csv_file, base_prompt, judge_configs, function_eval_configs) =>
    let valset := valset_of env
    let adapter := adapter_of cfg csv_file base_prompt judge_configs function_eval_configs
    let s2 := update_progress s1 config_id (fun r =>
      { r with message := "Running optimization (max " ++
          toString cfg.max_metric_calls ++ " iterations)..." })
    match env.optimize_result with
    | .error e => (set_error s2 config_id ("Optimization failed: " ++ e), .error e)
    | .ok result =>
      let best_prompt := choose_best_prompt result
      if best_prompt = "" then
        let e := "GEPA optimization did not produce a valid prompt - could not find system_prompt in result"
        (set_error s2 config_id ("Optimization failed: " ++ e), .error e)
      else if pyStrip best_prompt = "" then
        let e := "GEPA optimization did not produce a valid prompt"
        (set_error s2 config_id ("Optimization failed: " ++ e), .error e)
      else
        let s3 := update_progress s2 config_id (fun r =>
          { r with message := "Calculating final validation score..." })
        -- the source evaluates result.best_candidate here, not the
        -- fallback-chosen candidate
        let ev := evaluate_call env.llm adapter valset result.best_candidate false 0 s3
        let s4 := ev.1.2
        match ev.2 with
        | .error e =>
          (set_error s4 config_id ("Optimization failed: " ++ e), .error e)
        | .ok val_batch =>
          let best_score := mean_scores val_batch.scores
          let s5 := update_progress s4 config_id (fun r =>
            { r with best_score := some best_score,
                     message := "Final validation score: " ++ fmt3 best_score })
          persist_phase env cfg csv_file_id base_prompt best_prompt best_score s5

/-! ## Background execution and run endpoint (`endpoints/gepa.py`) -/

/-- `_run_gepa_sync(config_id, csv_file_id)`: runs in the worker thread,
catches every exception from `run_gepa` and records it as an `error`
progress status (it re-raises nothing — the thread simply ends). -/
def run_gepa_sync (env : RunEnv) (config_lookup : Option GepaConfig)
    (config_id csv_file_id : Nat) (store : ProgressStore) : ProgressStore :=
  match config_lookup with
  | none => set_error store config_id "GEPA config not found"
  | some config =>
    match run_gepa env config csv_file_id store with
    | (s, .ok _) => s
    | (s, .error e) => set_error s config_id ("Optimization failed: " ++ e)

/-- HTTP failure modes of the run endpoint: 404 from `get_or_404`, 400
("already running") from the concurrency guard. -/
inductive ApiError where
  | notFound : String → ApiError
  | conflict : String → ApiError
deriving DecidableEq

/-- The `RunGepaResponse` returned immediately by the endpoint. -/
structure RunGepaResponse where
  best_prompt : String
  new_prompt_id : Nat
  score : ℚ
  logs : String
deriving DecidableEq

/-- `run_gepa_optimization_endpoint(config_id)`: reject 404 when the config
row is absent, reject 409-style conflict when the progress record exists
with status `running`, otherwise clear + re-initialize progress and submit
`(config_id, csv_file_id)` to the thread-pool executor before returning.
The submitted jobs are returned explicitly (second component). -/
def run_gepa_optimization_endpoint (config_lookup : Option GepaConfig)
    (config_id : Nat) (store : ProgressStore) :
    ProgressStore × List (Nat × Nat) × Except ApiError RunGepaResponse :=
  match config_lookup with
  | none => (store, [], .error (.notFound "GEPA config not found"))
  | some config =>
    let current_progress := get_progress store config_id
    if (match current_progress with
        | some p => p.status == "running"
        | none => false) then
      (store, [], .error (.conflict "Optimization is already running for this config"))
    else
      let s1 := update_progress (clear_progress store config_id) config_id (fun r =>
        { r with status := "running", current_iteration := 0,
                 max_iterations := config.max_metric_calls,
                 message := "Initializing optimization..." })
      (s1, [(config_id, config.csv_file_id)],
       .ok { best_prompt := "", new_prompt_id := 0, score := 0,
             logs := "Optimization started. Check progress endpoint for updates." })

/-! ## Helper lemmas -/

theorem store_get_store_set_same (s : ProgressStore) (id : Nat) (r : ProgressRecord) :
    store_get (store_set s id r) id = some r := by
  unfold store_get store_set
  rw [List.find?_append]
  have h1 : (s.filter (fun kv => kv.1 != id)).find? (fun kv => kv.1 == id) = none := by
    rw [List.find?_eq_none]
    intro kv hkv
    have := List.of_mem_filter hkv
    simp only [bne_iff_ne, ne_eq] at this
    simp [this]
  rw [h1]
  simp

theorem store_get_clear_same (s : ProgressStore) (id : Nat) :
    store_get (clear_progress s id) id = none := by
  unfold store_get clear_progress
  have h1 : (s.filter (fun kv => kv.1 != id)).find? (fun kv => kv.1 == id) = none := by
    rw [List.find?_eq_none]
    intro kv hkv
    have := List.of_mem_filter hkv
    simp only [bne_iff_ne, ne_eq] at this
    simp [this]
  rw [h1]
  rfl

theorem get_progress_update (s : ProgressStore) (id : Nat) (f : ProgressRecord → ProgressRecord) :
    get_progress (update_progress s id f) id = some (f ((store_get s id).getD {})) := by
  unfold get_progress update_progress
  exact store_get_store_set_same _ _ _

theorem get_progress_set_error (s : ProgressStore) (id : Nat) (m : String) :
    ∃ r, get_progress (set_error s id m) id = some r ∧ r.status = "error" ∧ r.message = m := by
  refine ⟨_, get_progress_update s id _, rfl, rfl⟩

/-- The `Except` outcome of `evaluate` does not depend on the evaluation
counter or the progress store (they only feed the progress side channel). -/
theorem evaluate_snd_congr (env : LlmEnv) (A : EvalsBackedAdapter) (inputs : List Item)
    (candidate : List (String × String)) (capture_traces : Bool)
    (c₁ c₂ : Nat) (s₁ s₂ : ProgressStore) :
    (EvalsBackedAdapter.evaluate env A inputs candidate capture_traces c₁ s₁).2 =
    (EvalsBackedAdapter.evaluate env A inputs candidate capture_traces c₂ s₂).2 := by
  unfold EvalsBackedAdapter.evaluate
  cases lookupStr candidate "system_prompt" <;> rfl

/-! ## Shared concrete scenario used by the witnesses -/

def wEnv : LlmEnv :=
  { render_prompt := fun sp _ _ => if sp = "bad" then .error "render boom" else .ok sp,
    chat_completion := fun sp _ _ _ _ => if sp = "P" then .ok "out" else .error "llm boom",
    run_judge_evaluation := fun jc _ _ _ => if jc.name = "j1" then .ok (1/2) else .error "judge boom",
    run_function_evaluation := fun n _ _ _ => if n = "exact" then .ok 1 else .error "fn boom" }

def wAdapter : EvalsBackedAdapter :=
  { available_columns := ["q"],
    judge_configs := [⟨1, "j1"⟩],
    function_eval_configs := [⟨1, "f1", "exact", ""⟩],
    generator_model := "m", generator_temperature := 1, generator_max_tokens := 10,
    user_message_column := none, config_id := 7 }

def wItem : Item := ⟨[("q", "hi")], 11⟩

/-! ## Claim C1 -/

/-- Claim C1: for every list of input rows of length N and every candidate
containing a `system_prompt` field, `EvalsBackedAdapter.evaluate` returns a
batch whose scores and outputs sequences each have length N and are
positionally aligned with the input rows — the i-th score and i-th output
are exactly those computed from the i-th input row — regardless of which
rows failed (failures are absorbed into `evaluate_single_item`) and of
internal completion order (`asyncio.gather` keeps task order). -/
theorem evaluate_preserves_length_and_alignment
    (env : LlmEnv) (A : EvalsBackedAdapter) (inputs : List Item)
    (candidate : List (String × String)) (capture_traces : Bool)
    (eval_count : Nat) (store : ProgressStore) (sp : String)
    (hsp : lookupStr candidate "system_prompt" = some sp) :
    ∃ b : EvaluationBatch,
      (EvalsBackedAdapter.evaluate env A inputs candidate capture_traces eval_count store).2 = .ok b
      ∧ b.scores.length = inputs.length
      ∧ b.outputs.length = inputs.length
      ∧ (∀ i : Nat, b.scores[i]? = (inputs[i]?).map
           (fun it => (evaluate_single_item env A it sp capture_traces).score))
      ∧ (∀ i : Nat, b.outputs[i]? = (inputs[i]?).map
           (fun it => (evaluate_single_item env A it sp capture_traces).output)) := by
  refine ⟨⟨(inputs.map (fun it => evaluate_single_item env A it sp capture_traces)).map (·.score),
           (inputs.map (fun it => evaluate_single_item env A it sp capture_traces)).map (·.output),
           (inputs.map (fun it => evaluate_single_item env A it sp capture_traces)).filterMap
             (·.trajectory)⟩, ?_, ?_, ?_, ?_, ?_⟩
  · simp only [EvalsBackedAdapter.evaluate, hsp]
  · simp
  · simp
  · intro i
    simp [List.getElem?_map, Option.map_map]
    rfl
  · intro i
    simp [List.getElem?_map, Option.map_map]
    rfl

/-- Witness for C1 at a concrete one-row batch. -/
theorem evaluate_preserves_length_and_alignment_witness :
    ∃ b : EvaluationBatch,
      (EvalsBackedAdapter.evaluate wEnv wAdapter [wItem] [("system_prompt", "P")] true 0 []).2 = .ok b
      ∧ b.scores.length = [wItem].length
      ∧ b.outputs.length = [wItem].length
      ∧ (∀ i : Nat, b.scores[i]? = ([wItem][i]?).map
           (fun it => (evaluate_single_item wEnv wAdapter it "P" true).score))
      ∧ (∀ i : Nat, b.outputs[i]? = ([wItem][i]?).map
           (fun it => (evaluate_single_item wEnv wAdapter it "P" true).output)) :=
  evaluate_preserves_length_and_alignment wEnv wAdapter [wItem] [("system_prompt", "P")]
    true 0 [] "P" rfl

/-! ## Claim C2 (corrected) -/

/-- Counterexample to claim C2 as stated: at this concrete input the row's
generation fails (template rendering error) and trace capture is requested,
yet the returned batch's `trajectories` list is empty — no trajectory
records the failure reason as feedback.  (The source returns the empty dict
`{}` for a failed row and `if capture_traces and trajectory:` drops it.)
The score-0.0 / empty-output part of the claim does hold. -/
theorem evaluate_gen_failure_trajectory_counterexample :
    (EvalsBackedAdapter.evaluate wEnv wAdapter [wItem] [("system_prompt", "bad")] true 0 []).2 =
      .ok { scores := [0], outputs := [""], trajectories := ([] : List Trajectory) }
    ∧ generate_output wEnv wAdapter "bad" wItem.row_data wAdapter.user_message_column =
        .error "render boom" := by
  constructor
  · rfl
  · rfl

/-- Claim C2 (amended): for every input row whose generation step fails,
`evaluate` records score `0.0` and an empty-string output for that row, the
batch continues with all rows (the batch never raises when the candidate has
the `system_prompt` field), and the failure reason is carried only in the
row's internal feedback string (`"Generation failed: ..."`); no trajectory
is emitted for that row — its trajectory slot is empty and it is omitted
from the batch's trajectories even when trace capture is requested. -/
theorem evaluate_gen_failure_absorbed
    (env : LlmEnv) (A : EvalsBackedAdapter) (inputs : List Item)
    (candidate : List (String × String)) (capture_traces : Bool)
    (eval_count : Nat) (store : ProgressStore) (sp : String) (i : Nat) (it : Item) (e : String)
    (hsp : lookupStr candidate "system_prompt" = some sp)
    (hit : inputs[i]? = some it)
    (hgen : generate_output env A sp it.row_data A.user_message_column = .error e) :
    ∃ b : EvaluationBatch,
      (EvalsBackedAdapter.evaluate env A inputs candidate capture_traces eval_count store).2 = .ok b
      ∧ b.scores.length = inputs.length
      ∧ b.scores[i]? = some 0
      ∧ b.outputs[i]? = some ""
      ∧ (evaluate_single_item env A it sp capture_traces).trajectory = none
      ∧ (evaluate_single_item env A it sp capture_traces).feedback = "Generation failed: " ++ e := by
  have hsingle : evaluate_single_item env A it sp capture_traces =
      { output := "", score := 0, trajectory := none, feedback := "Generation failed: " ++ e } := by
    unfold evaluate_single_item
    rw [hgen]
  refine ⟨⟨(inputs.map (fun x => evaluate_single_item env A x sp capture_traces)).map (·.score),
           (inputs.map (fun x => evaluate_single_item env A x sp capture_traces)).map (·.output),
           (inputs.map (fun x => evaluate_single_item env A x sp capture_traces)).filterMap
             (·.trajectory)⟩, ?_, by simp, ?_, ?_, ?_, ?_⟩
  · simp only [EvalsBackedAdapter.evaluate, hsp]
  · simp [List.getElem?_map, hit, hsingle]
  · simp [List.getElem?_map, hit, hsingle]
  · rw [hsingle]
  · rw [hsingle]

/-- Witness for C2 at a concrete failing row. -/
theorem evaluate_gen_failure_absorbed_witness :
    ∃ b : EvaluationBatch,
      (EvalsBackedAdapter.evaluate wEnv wAdapter [wItem, wItem] [("system_prompt", "bad")] true 0 []).2 = .ok b
      ∧ b.scores.length = [wItem, wItem].length
      ∧ b.scores[0]? = some 0
      ∧ b.outputs[0]? = some ""
      ∧ (evaluate_single_item wEnv wAdapter wItem "bad" true).trajectory = none
      ∧ (evaluate_single_item wEnv wAdapter wItem "bad" true).feedback =
          "Generation failed: " ++ "render boom" :=
  evaluate_gen_failure_absorbed wEnv wAdapter [wItem, wItem] [("system_prompt", "bad")]
    true 0 [] "bad" 0 wItem "render boom" rfl rfl rfl

/-! ## Claim C3 -/

/-- The per-scorer score contributions for one successfully generated row:
judge scorers first (declaration order), then function scorers; a raising
scorer contributes exactly `0.0`. -/
def per_scorer_scores (env : LlmEnv) (A : EvalsBackedAdapter) (item : Item) (summary : String) :
    List ℚ :=
  A.judge_configs.map (fun jc =>
    match env.run_judge_evaluation jc item.row_data summary A.available_columns with
    | .ok s => s
    | .error _ => 0)
  ++ A.function_eval_configs.map (fun fc =>
    match env.run_function_evaluation fc.function_name item.row_data summary fc.config with
    | .ok s => s
    | .error _ => 0)

/-- The judge contribution list collapses to per-score values. -/
theorem judge_results_scores (env : LlmEnv) (cols : List String) (rd : RowData)
    (summary : String) (l : List JudgeConfig) :
    (l.map (fun jc =>
      match env.run_judge_evaluation jc rd summary cols with
      | .ok score => ("judge_" ++ jc.name, score, jc.name ++ ": " ++ fmt3 score)
      | .error e => ("judge_" ++ jc.name, (0 : ℚ), jc.name ++ ": failed (" ++ e ++ ")"))).map
        (fun g => g.2.1)
    = l.map (fun jc =>
        match env.run_judge_evaluation jc rd summary cols with
        | .ok s => s
        | .error _ => 0) := by
  rw [List.map_map]
  apply List.map_congr_left
  intro jc _
  cases h : env.run_judge_evaluation jc rd summary cols <;> simp [Function.comp, h]

/-- The function-scorer contribution list collapses to per-score values. -/
theorem function_results_scores (env : LlmEnv) (rd : RowData)
    (summary : String) (l : List FunctionEvalConfig) :
    (l.map (fun fc =>
      match env.run_function_evaluation fc.function_name rd summary fc.config with
      | .ok score => ("function_" ++ fc.name, score, fc.name ++ ": " ++ fmt3 score)
      | .error e => ("function_" ++ fc.name, (0 : ℚ), fc.name ++ ": failed (" ++ e ++ ")"))).map
        (fun g => g.2.1)
    = l.map (fun fc =>
        match env.run_function_evaluation fc.function_name rd summary fc.config with
        | .ok s => s
        | .error _ => 0) := by
  rw [List.map_map]
  apply List.map_congr_left
  intro fc _
  cases h : env.run_function_evaluation fc.function_name rd summary fc.config <;>
    simp [Function.comp, h]

/-- When every scorer raises, one row's combined score is `0` whatever the
generation outcome was. -/
theorem single_item_score_zero_of_all_fail (env : LlmEnv) (A : EvalsBackedAdapter)
    (item : Item) (sp : String) (capture_traces : Bool)
    (hj : ∀ jc rd out, ∃ e, env.run_judge_evaluation jc rd out A.available_columns = .error e)
    (hf : ∀ nm rd out c, ∃ e, env.run_function_evaluation nm rd out c = .error e) :
    (evaluate_single_item env A item sp capture_traces).score = 0 := by
  unfold evaluate_single_item
  cases hgen : generate_output env A sp item.row_data A.user_message_column with
  | error e => rfl
  | ok summary =>
    dsimp only
    by_cases hblank : summary = "" ∨ pyStrip summary = ""
    · rw [if_pos hblank]
    · rw [if_neg hblank]
      dsimp only
      rw [List.map_append, judge_results_scores, function_results_scores]
      have hjz : A.judge_configs.map (fun jc =>
          match env.run_judge_evaluation jc item.row_data summary A.available_columns with
          | .ok s => s
          | .error _ => (0 : ℚ)) = A.judge_configs.map (fun _ => (0 : ℚ)) := by
        apply List.map_congr_left
        intro jc _
        obtain ⟨e, he⟩ := hj jc item.row_data summary
        rw [he]
      have hfz : A.function_eval_configs.map (fun fc =>
          match env.run_function_evaluation fc.function_name item.row_data summary fc.config with
          | .ok s => s
          | .error _ => (0 : ℚ)) = A.function_eval_configs.map (fun _ => (0 : ℚ)) := by
        apply List.map_congr_left
        intro fc _
        obtain ⟨e, he⟩ := hf fc.function_name item.row_data summary fc.config
        rw [he]
      rw [hjz, hfz]
      by_cases hemp : (A.judge_configs.map (fun _ => (0 : ℚ)) ++
          A.function_eval_configs.map (fun _ => (0 : ℚ))) = []
      · rw [if_pos (by rw [hemp]; rfl)]
      · rw [if_neg (by rwa [List.isEmpty_iff])]
        have hz : ∀ x ∈ (A.judge_configs.map (fun _ => (0 : ℚ)) ++
            A.function_eval_configs.map (fun _ => (0 : ℚ))), x = (0 : ℚ) := by
          intro x hx
          rw [List.mem_append] at hx
          rcases hx with hx | hx <;> · rw [List.mem_map] at hx; obtain ⟨_, _, h⟩ := hx; exact h.symm
        rw [List.sum_eq_zero hz, zero_div]

/-- Claim C3: (1) for every row whose generation succeeds (non-blank
output), the combined score is the arithmetic mean of the per-scorer scores
over all configured judge and function scorers, a raising scorer
contributing exactly `0.0` while the others still run; (2) if every
configured scorer raises for every row, every row's combined score is `0.0`
and `evaluate` still returns without raising. -/
theorem combined_score_is_mean_of_scorers :
    (∀ (env : LlmEnv) (A : EvalsBackedAdapter) (item : Item) (sp : String)
       (capture_traces : Bool) (summary : String),
       generate_output env A sp item.row_data A.user_message_column = .ok summary →
       ¬(summary = "" ∨ pyStrip summary = "") →
       ¬(A.judge_configs.isEmpty ∧ A.function_eval_configs.isEmpty) →
       (evaluate_single_item env A item sp capture_traces).score =
         (per_scorer_scores env A item summary).sum / (per_scorer_scores env A item summary).length)
    ∧ (∀ (env : LlmEnv) (A : EvalsBackedAdapter) (inputs : List Item)
         (candidate : List (String × String)) (capture_traces : Bool)
         (eval_count : Nat) (store : ProgressStore) (sp : String),
         lookupStr candidate "system_prompt" = some sp →
         (∀ jc rd out, ∃ e, env.run_judge_evaluation jc rd out A.available_columns = .error e) →
         (∀ nm rd out c, ∃ e, env.run_function_evaluation nm rd out c = .error e) →
         ∃ b : EvaluationBatch,
           (EvalsBackedAdapter.evaluate env A inputs candidate capture_traces eval_count store).2 =
             .ok b
           ∧ ∀ q ∈ b.scores, q = 0) := by
  constructor
  · intro env A item sp capture_traces summary hgen hne hsc
    unfold evaluate_single_item
    rw [hgen]
    dsimp only
    rw [if_neg hne]
    dsimp only
    rw [List.map_append, judge_results_scores, function_results_scores]
    have hni : ((per_scorer_scores env A item summary).isEmpty = false) := by
      unfold per_scorer_scores
      rcases hJ : A.judge_configs with _ | ⟨j, js⟩
      · rcases hF : A.function_eval_configs with _ | ⟨f, fs⟩
        · exact absurd ⟨by rw [hJ]; rfl, by rw [hF]; rfl⟩ hsc
        · simp
      · simp
    unfold per_scorer_scores at hni ⊢
    rw [if_neg (by simp_all)]
  · intro env A inputs candidate capture_traces eval_count store sp hsp hj hf
    refine ⟨⟨(inputs.map (fun x => evaluate_single_item env A x sp capture_traces)).map (·.score),
             (inputs.map (fun x => evaluate_single_item env A x sp capture_traces)).map (·.output),
             (inputs.map (fun x => evaluate_single_item env A x sp capture_traces)).filterMap
               (·.trajectory)⟩, ?_, ?_⟩
    · simp only [EvalsBackedAdapter.evaluate, hsp]
    · intro q hq
      simp only [List.map_map, List.mem_map, Function.comp] at hq
      obtain ⟨item, _, hitem⟩ := hq
      rw [← hitem]
      exact single_item_score_zero_of_all_fail env A item sp capture_traces hj hf

/-- A scorer environment in which every judge and function scorer raises. -/
def wEnvAllFail : LlmEnv :=
  { render_prompt := fun sp _ _ => .ok sp,
    chat_completion := fun _ _ _ _ _ => .ok "out",
    run_judge_evaluation := fun _ _ _ _ => .error "judge down",
    run_function_evaluation := fun _ _ _ _ => .error "fn down" }

/-- Witness for C3: part (1) at a concrete successful row, part (2) at an
environment where every scorer raises. -/
theorem combined_score_is_mean_of_scorers_witness :
    ((evaluate_single_item wEnv wAdapter wItem "P" true).score =
      (per_scorer_scores wEnv wAdapter wItem "out").sum /
        (per_scorer_scores wEnv wAdapter wItem "out").length)
    ∧ (∃ b : EvaluationBatch,
        (EvalsBackedAdapter.evaluate wEnvAllFail wAdapter [wItem]
          [("system_prompt", "P")] true 0 []).2 = .ok b
        ∧ ∀ q ∈ b.scores, q = 0) := by
  constructor
  · exact combined_score_is_mean_of_scorers.1 wEnv wAdapter wItem "P" true "out"
      rfl (by decide) (by decide)
  · exact combined_score_is_mean_of_scorers.2 wEnvAllFail wAdapter [wItem]
      [("system_prompt", "P")] true 0 [] "P" rfl
      (fun jc rd out => ⟨"judge down", rfl⟩) (fun nm rd out c => ⟨"fn down", rfl⟩)

/-! ## Claim C6 -/

/-- Claim C6: for every dataset with at least one row, shuffling and
splitting gives a validation subset of size `max 1 (R / 5)` (20% of R,
truncated, clamped up to at least 1), the train and validation sizes sum to
R, the validation size is at least 1, and (with distinct row ids) no row
appears in both subsets. -/
theorem train_val_split_coverage (rows shuffled : List CSVRow)
    (hperm : shuffled.Perm rows) (hne : rows ≠ []) :
    (shuffled.take (val_cut_of shuffled.length)).length = val_cut_of rows.length
    ∧ (shuffled.take (val_cut_of shuffled.length)).length
        + (shuffled.drop (val_cut_of shuffled.length)).length = rows.length
    ∧ 1 ≤ (shuffled.take (val_cut_of shuffled.length)).length
    ∧ ((rows.map (fun r => r.id)).Nodup →
        ∀ r, r ∈ shuffled.take (val_cut_of shuffled.length) →
          r ∉ shuffled.drop (val_cut_of shuffled.length)) := by
  have hlen : shuffled.length = rows.length := hperm.length_eq
  have hpos : 0 < rows.length := List.length_pos.2 hne
  have hcut : val_cut_of rows.length ≤ rows.length := by
    unfold val_cut_of
    exact max_le hpos (Nat.div_le_self rows.length 5)
  have hone : 1 ≤ val_cut_of rows.length := le_max_left 1 _
  refine ⟨?_, ?_, ?_, ?_⟩
  · rw [List.length_take, hlen]
    omega
  · rw [List.length_take, List.length_drop, hlen]
    omega
  · rw [List.length_take, hlen]
    omega
  · intro hnodup r hv hd
    have hrn : rows.Nodup := List.Nodup.of_map _ hnodup
    have hsn : shuffled.Nodup := (hperm.nodup_iff).2 hrn
    exact List.disjoint_take_drop hsn (le_refl _) hv hd

/-- Witness for C6 at a concrete two-row dataset. -/
theorem train_val_split_coverage_witness :
    (([⟨2, []⟩, ⟨1, []⟩] : List CSVRow).take
        (val_cut_of ([⟨2, []⟩, ⟨1, []⟩] : List CSVRow).length)).length
      = val_cut_of ([⟨1, []⟩, ⟨2, []⟩] : List CSVRow).length
    ∧ (([⟨2, []⟩, ⟨1, []⟩] : List CSVRow).take
          (val_cut_of ([⟨2, []⟩, ⟨1, []⟩] : List CSVRow).length)).length
        + (([⟨2, []⟩, ⟨1, []⟩] : List CSVRow).drop
            (val_cut_of ([⟨2, []⟩, ⟨1, []⟩] : List CSVRow).length)).length
        = ([⟨1, []⟩, ⟨2, []⟩] : List CSVRow).length
    ∧ 1 ≤ (([⟨2, []⟩, ⟨1, []⟩] : List CSVRow).take
        (val_cut_of ([⟨2, []⟩, ⟨1, []⟩] : List CSVRow).length)).length
    ∧ ((([⟨1, []⟩, ⟨2, []⟩] : List CSVRow).map (fun r => r.id)).Nodup →
        ∀ r, r ∈ ([⟨2, []⟩, ⟨1, []⟩] : List CSVRow).take
            (val_cut_of ([⟨2, []⟩, ⟨1, []⟩] : List CSVRow).length) →
          r ∉ ([⟨2, []⟩, ⟨1, []⟩] : List CSVRow).drop
            (val_cut_of ([⟨2, []⟩, ⟨1, []⟩] : List CSVRow).length)) :=
  train_val_split_coverage [⟨1, []⟩, ⟨2, []⟩] [⟨2, []⟩, ⟨1, []⟩] (by decide) (by decide)

/-- A concrete GEPA config shared by the run-level witnesses. -/
def wConfig : GepaConfig :=
  { id := 7, name := "cfg", csv_file_id := 3, base_prompt_id := 2,
    judge_config_ids := [], function_eval_config_ids := [1],
    generator_model := "m", reflection_model := "m",
    generator_temperature := 1, generator_max_tokens := 100, max_metric_calls := 5 }

/-! ## Claim C9 -/

/-- Claim C9: given an existing config, the run endpoint rejects with a
conflict error exactly when the progress record for that config exists with
status `running`; in every other situation (record absent, or any other
status) the request is accepted, the progress record is re-initialized with
status `running`, and the run is submitted to the background pool before
the endpoint returns. -/
theorem single_active_run_invariant (config : GepaConfig) (store : ProgressStore)
    (config_id : Nat) :
    ((run_gepa_optimization_endpoint (some config) config_id store).2.2 =
        .error (.conflict "Optimization is already running for this config")
      ↔ ∃ p, get_progress store config_id = some p ∧ p.status = "running")
    ∧ ((∀ p, get_progress store config_id = some p → p.status ≠ "running") →
        (run_gepa_optimization_endpoint (some config) config_id store).2.1 =
            [(config_id, config.csv_file_id)]
        ∧ (run_gepa_optimization_endpoint (some config) config_id store).2.2 =
            .ok { best_prompt := "", new_prompt_id := 0, score := 0,
                  logs := "Optimization started. Check progress endpoint for updates." }
        ∧ ∃ r, get_progress (run_gepa_optimization_endpoint (some config) config_id store).1
              config_id = some r ∧ r.status = "running") := by
  have haccept : (match get_progress store config_id with
      | some p => p.status == "running"
      | none => false) = false →
      run_gepa_optimization_endpoint (some config) config_id store =
        (update_progress (clear_progress store config_id) config_id (fun r =>
          { r with status := "running", current_iteration := 0,
                   max_iterations := config.max_metric_calls,
                   message := "Initializing optimization..." }),
         [(config_id, config.csv_file_id)],
         .ok { best_prompt := "", new_prompt_id := 0, score := 0,
               logs := "Optimization started. Check progress endpoint for updates." }) := by
    intro hcond
    simp only [run_gepa_optimization_endpoint]
    rw [if_neg (by rw [hcond]; simp)]
  constructor
  · cases hp : get_progress store config_id with
    | none =>
      rw [haccept (by rw [hp])]
      constructor
      · intro h
        exact absurd h (by simp)
      · rintro ⟨p, hps, -⟩
        cases hps
    | some p =>
      by_cases hs : p.status = "running"
      · constructor
        · intro _
          exact ⟨p, rfl, hs⟩
        · intro _
          simp only [run_gepa_optimization_endpoint, hp]
          rw [if_pos (by simp [hs])]
      · rw [haccept (by rw [hp]; simp [hs])]
        constructor
        · intro h
          exact absurd h (by simp)
        · rintro ⟨q, hq, hqs⟩
          injection hq with h
          subst h
          exact absurd hqs hs
  · intro hnr
    have hcond : (match get_progress store config_id with
        | some p => p.status == "running"
        | none => false) = false := by
      cases hp : get_progress store config_id with
      | none => rfl
      | some p =>
        simpa using hnr p hp
    rw [haccept hcond]
    refine ⟨rfl, rfl,
      { status := "running", current_iteration := 0,
        max_iterations := config.max_metric_calls, current_score := none,
        best_score := none, message := "Initializing optimization...",
        new_prompt_id := none }, ?_, rfl⟩
    show get_progress (update_progress (clear_progress store config_id) config_id (fun r =>
        { r with status := "running", current_iteration := 0,
                 max_iterations := config.max_metric_calls,
                 message := "Initializing optimization..." })) config_id = some _
    rw [get_progress_update, store_get_clear_same]
    rfl

/-- Witness for C9: a store whose record is in `completed` status accepts a
new run. -/
theorem single_active_run_invariant_witness :
    (((run_gepa_optimization_endpoint (some wConfig) 7
          [(7, { status := "completed" })]).2.2 =
        .error (.conflict "Optimization is already running for this config"))
      ↔ ∃ p, get_progress [(7, { status := "completed" })] 7 = some p ∧ p.status = "running")
    ∧ ((∀ p, get_progress [(7, { status := "completed" })] 7 = some p →
          p.status ≠ "running") →
        (run_gepa_optimization_endpoint (some wConfig) 7
            [(7, { status := "completed" })]).2.1 = [(7, wConfig.csv_file_id)]
        ∧ (run_gepa_optimization_endpoint (some wConfig) 7
              [(7, { status := "completed" })]).2.2 =
            .ok { best_prompt := "", new_prompt_id := 0, score := 0,
                  logs := "Optimization started. Check progress endpoint for updates." }
        ∧ ∃ r, get_progress (run_gepa_optimization_endpoint (some wConfig) 7
              [(7, { status := "completed" })]).1 7 = some r ∧ r.status = "running") :=
  single_active_run_invariant wConfig [(7, { status := "completed" })] 7

/-! ## Claim C10 -/

/-- Number of `prompt_map` entries whose key is not yet in `visited` — the
variant of the phase-2 `while` loop of `get_root_prompt_id`. -/
def not_visited_count (pmap : List Prompt) (visited : List Nat) : Nat :=
  (pmap.filter (fun p => !(visited.contains p.id))).length

theorem length_filter_le_of_imp {α : Type} (l : List α) (p q : α → Bool)
    (h : ∀ a, p a = true → q a = true) :
    (l.filter p).length ≤ (l.filter q).length := by
  induction l with
  | nil => simp
  | cons b l ih =>
    by_cases hpb : p b = true
    · rw [List.filter_cons_of_pos hpb, List.filter_cons_of_pos (h b hpb)]
      simpa using ih
    · rw [List.filter_cons_of_neg (by simpa using hpb)]
      by_cases hqb : q b = true
      · rw [List.filter_cons_of_pos hqb]
        exact le_trans ih (by simp)
      · rw [List.filter_cons_of_neg (by simpa using hqb)]
        exact ih

theorem length_filter_lt_of_witness {α : Type} (l : List α) (p q : α → Bool)
    (h : ∀ a, p a = true → q a = true) (a : α) (ha : a ∈ l)
    (hqa : q a = true) (hpa : p a = false) :
    (l.filter p).length < (l.filter q).length := by
  induction l with
  | nil => cases ha
  | cons b l ih =>
    rcases List.mem_cons.1 ha with rfl | hal
    · rw [List.filter_cons_of_pos hqa, List.filter_cons_of_neg (by simp [hpa])]
      exact Nat.lt_succ_of_le (length_filter_le_of_imp l p q h)
    · by_cases hqb : q b = true
      · rw [List.filter_cons_of_pos hqb]
        by_cases hpb : p b = true
        · rw [List.filter_cons_of_pos hpb]
          simpa using ih hal
        · rw [List.filter_cons_of_neg (by simpa using hpb)]
          exact Nat.lt_succ_of_lt (ih hal)
      · have hpb : p b = false := by
          cases hpbv : p b
          · rfl
          · exact absurd (h b hpbv) hqb
        rw [List.filter_cons_of_neg (by simp [hpb]), List.filter_cons_of_neg (by simpa using hqb)]
        exact ih hal

/-- Visiting a key that is present in `prompt_map` strictly shrinks the
loop variant. -/
theorem not_visited_count_lt (pmap : List Prompt) (visited : List Nat)
    (current : Nat) (cur : Prompt)
    (hfind : find_prompt pmap current = some cur)
    (hnv : visited.contains current = false) :
    not_visited_count pmap (current :: visited) < not_visited_count pmap visited := by
  have hcurid : cur.id = current := by
    have := List.find?_some hfind
    simpa using this
  apply length_filter_lt_of_witness pmap _ _ ?_ cur (List.mem_of_find?_eq_some hfind)
  · rw [hcurid]
    simpa using hnv
  · rw [hcurid]
    simp
  · intro a hpa
    simp only [Bool.not_eq_true', List.contains_cons] at hpa ⊢
    simpa using (Bool.or_eq_false_iff.1 hpa).2

/-- One unfolding step of the phase-2 loop. -/
theorem root_scan_succ (pmap : List Prompt) (visited : List Nat) (current fuel : Nat) :
    root_scan pmap visited current (fuel + 1) =
      match find_prompt pmap current with
      | none => current
      | some cur =>
        if visited.contains current then current
        else if pyTruthyNat cur.parent_prompt_id then
          root_scan pmap (current :: visited) (cur.parent_prompt_id.getD 0) fuel
        else current := rfl

/-- Fuel-independence of the phase-2 loop above its variant: the loop
reaches its exit within `not_visited_count` iterations, for every database
state — cyclic parent chains included. -/
theorem root_scan_stable : ∀ (f₁ : Nat) (pmap : List Prompt) (visited : List Nat)
    (current f₂ : Nat), not_visited_count pmap visited < f₁ →
    not_visited_count pmap visited < f₂ →
    root_scan pmap visited current f₁ = root_scan pmap visited current f₂ := by
  intro f₁
  induction f₁ with
  | zero =>
    intro pmap visited current f₂ h1 _
    exact absurd h1 (by omega)
  | succ n ih =>
    intro pmap visited current f₂ h1 h2
    cases f₂ with
    | zero => exact absurd h2 (by omega)
    | succ m =>
      rw [root_scan_succ, root_scan_succ]
      cases hfind : find_prompt pmap current with
      | none => rfl
      | some cur =>
        dsimp only
        by_cases hv : visited.contains current = true
        · rw [hv]
          simp
        · rw [Bool.not_eq_true] at hv
          rw [hv]
          by_cases hpar : pyTruthyNat cur.parent_prompt_id = true
          · rw [hpar]
            simp only [Bool.false_eq_true, if_false, if_true]
            have hlt := not_visited_count_lt pmap visited current cur hfind hv
            exact ih pmap (current :: visited) (cur.parent_prompt_id.getD 0) m
              (by omega) (by omega)
          · rw [Bool.not_eq_true] at hpar
            rw [hpar]
            simp

/-- Claim C10: `get_root_prompt_id` terminates for every prompt identifier
and database state, cycles included — phase 1 is capped at depth 100 by
construction, and the phase-2 loop is fuel-independent above its
`not_visited_count` variant (in particular the `prompt_map.length + 1` fuel
used in `get_root_prompt_id` is enough, so the embedded function computes
the loop's true exit value); and it returns the given identifier unchanged
when the prompt does not exist or has no (truthy) parent. -/
theorem get_root_prompt_id_terminates :
    (∀ (pmap : List Prompt) (visited : List Nat) (current f₁ f₂ : Nat),
       not_visited_count pmap visited < f₁ → not_visited_count pmap visited < f₂ →
       root_scan pmap visited current f₁ = root_scan pmap visited current f₂)
    ∧ (∀ (db : List Prompt) (i : Nat), find_prompt db i = none →
        get_root_prompt_id db i = i)
    ∧ (∀ (db : List Prompt) (i : Nat) (p : Prompt), find_prompt db i = some p →
        pyTruthyNat p.parent_prompt_id = false → get_root_prompt_id db i = i) := by
  refine ⟨fun pmap visited current f₁ f₂ h1 h2 =>
    root_scan_stable f₁ pmap visited current f₂ h1 h2, ?_, ?_⟩
  · intro db i h
    unfold get_root_prompt_id
    rw [h]
  · intro db i p h hpar
    unfold get_root_prompt_id
    rw [h]
    simp [hpar]

/-- Witness for C10: the stability part applied to a two-element parent
cycle, and the identity parts at concrete databases. -/
theorem get_root_prompt_id_terminates_witness :
    (root_scan
        [{ id := 1, name := "a", system_prompt := "A", user_message_column := none,
           csv_file_id := 1, parent_prompt_id := some 2, version := 1 },
         { id := 2, name := "b", system_prompt := "B", user_message_column := none,
           csv_file_id := 1, parent_prompt_id := some 1, version := 1 }] [] 1 3
      = root_scan
        [{ id := 1, name := "a", system_prompt := "A", user_message_column := none,
           csv_file_id := 1, parent_prompt_id := some 2, version := 1 },
         { id := 2, name := "b", system_prompt := "B", user_message_column := none,
           csv_file_id := 1, parent_prompt_id := some 1, version := 1 }] [] 1 40)
    ∧ get_root_prompt_id [] 5 = 5
    ∧ get_root_prompt_id
        [{ id := 3, name := "c", system_prompt := "C", user_message_column := none,
           csv_file_id := 1, parent_prompt_id := none, version := 1 }] 3 = 3 :=
  ⟨get_root_prompt_id_terminates.1 _ [] 1 3 40 (by decide) (by decide),
   get_root_prompt_id_terminates.2.1 [] 5 rfl,
   get_root_prompt_id_terminates.2.2 _ 3 _ rfl rfl⟩

/-! ## Shared concrete run-level scenario -/

def wRootPrompt : Prompt :=
  { id := 1, name := "root", system_prompt := "seed", user_message_column := some "a",
    csv_file_id := 3, parent_prompt_id := none, version := 1 }

def wBasePrompt : Prompt :=
  { id := 2, name := "child", system_prompt := "S", user_message_column := some "b",
    csv_file_id := 3, parent_prompt_id := some 1, version := 2 }

def wCsv : CSVFile := { id := 3, columns := ["b", "q"] }

def wRow : CSVRow := { id := 11, row_data := [("b", "msg"), ("q", "hi")] }

def wFn : FunctionEvalConfig := ⟨1, "f1", "exact", ""⟩

/-- A persistence layer that stores faithfully and reads back what was
written (id 42 assigned). -/
def echoPersist : NewPrompt → Except String (Nat × Option Prompt) := fun np =>
  .ok (42, some { id := 42, name := np.name, system_prompt := np.system_prompt,
                  user_message_column := np.user_message_column, csv_file_id := np.csv_file_id,
                  parent_prompt_id := np.parent_prompt_id, version := np.version,
                  commit_message := np.commit_message })

/-- A run environment for a one-row dataset with a single function scorer.
The search result's `best_candidate` carries an *empty* system prompt while
the fallback `candidate` carries `"P"` — the configuration that separates
the fallback-chosen candidate from `best_candidate`. -/
def wEnvRun : RunEnv :=
  { llm := wEnv, csv_file := some wCsv, prompts := [wRootPrompt, wBasePrompt],
    judge_configs := [], function_eval_configs := [wFn],
    all_rows := [wRow], shuffled_rows := [wRow],
    optimize_result := .ok { best_candidate := some [("system_prompt", "")],
                             candidate := some [("system_prompt", "P")] },
    persist := echoPersist }

/-- The `Except` outcome of the `evaluate` call with a possibly-`None`
candidate is independent of evaluation counter and progress store. -/
theorem evaluate_call_snd_congr (env : LlmEnv) (A : EvalsBackedAdapter) (inputs : List Item)
    (candidate : Option (List (String × String))) (capture_traces : Bool)
    (c₁ c₂ : Nat) (s₁ s₂ : ProgressStore) :
    (evaluate_call env A inputs candidate capture_traces c₁ s₁).2 =
    (evaluate_call env A inputs candidate capture_traces c₂ s₂).2 := by
  cases candidate with
  | none => rfl
  | some c => exact evaluate_snd_congr env A inputs c capture_traces c₁ c₂ s₁ s₂

/-- Shape of a successful `persist_phase`: the prompt handed to the
persistence layer is `mk_new_prompt` of the resolved root, next version and
stripped best prompt, the read-back matched, and the returned dict carries
the assigned id and the score. -/
theorem persist_phase_ok (env : RunEnv) (cfg : GepaConfig) (csvId : Nat)
    (base : Prompt) (bp : String) (score : ℚ) (s : ProgressStore) (r : RunResult)
    (h : (persist_phase env cfg csvId base bp score s).2 = .ok r) :
    ∃ root nid saved,
      find_prompt env.prompts (get_root_prompt_id env.prompts cfg.base_prompt_id) = some root
      ∧ env.persist (mk_new_prompt root (get_root_prompt_id env.prompts cfg.base_prompt_id)
          (get_next_prompt_version env.prompts (get_root_prompt_id env.prompts cfg.base_prompt_id))
          cfg csvId base (pyStrip bp) score) = .ok (nid, some saved)
      ∧ saved.system_prompt = pyStrip bp
      ∧ r = { best_prompt := bp, new_prompt_id := nid, score := score,
              logs := "Optimization completed. Best score: " ++ fmt3 score } := by
  unfold persist_phase at h
  dsimp only at h
  cases hroot : find_prompt env.prompts (get_root_prompt_id env.prompts cfg.base_prompt_id) with
  | none =>
    rw [hroot] at h
    cases h
  | some root =>
    rw [hroot] at h
    dsimp only at h
    cases hpersist : env.persist (mk_new_prompt root
        (get_root_prompt_id env.prompts cfg.base_prompt_id)
        (get_next_prompt_version env.prompts (get_root_prompt_id env.prompts cfg.base_prompt_id))
        cfg csvId base (pyStrip bp) score) with
    | error e =>
      rw [hpersist] at h
      cases h
    | ok pr =>
      rw [hpersist] at h
      rcases pr with ⟨nid, rb⟩
      cases rb with
      | none => cases h
      | some saved =>
        dsimp only at h
        by_cases hmatch : saved.system_prompt = pyStrip bp
        · rw [if_neg (by simp [hmatch])] at h
          refine ⟨root, nid, saved, rfl, hpersist, hmatch, ?_⟩
          cases h
          rfl
        · rw [if_pos (by simp [hmatch])] at h
          cases h

/-! ## Claim C5 (corrected) -/

def wEnvNoCsv : RunEnv := { wEnvRun with csv_file := none }

def wEnvOptFail : RunEnv := { wEnvRun with optimize_result := .error "search blew up" }

/-- Counterexample to C5 as stated: a failure in the `validating` step (CSV
file not found) raises out of `run_gepa`, yet `run_gepa` itself leaves the
progress record in status `running` — the `error` transition for such
failures happens only in the `_run_gepa_sync` wrapper. -/
theorem validating_failure_leaves_running_counterexample :
    (run_gepa wEnvNoCsv wConfig 3 []).2 = .error "CSV file 3 not found"
    ∧ (get_progress (run_gepa wEnvNoCsv wConfig 3 []).1 wConfig.id).map (fun r => r.status)
        = some "running"
    ∧ "running" ≠ "error" :=
  ⟨rfl, rfl, by decide⟩

/-- Claim C5 (amended): `run_gepa` re-raises every failure to its caller,
but transitions the progress record to `error` itself only for failures in
the optimization / final-scoring phase (the `try` block); failures while
validating or persisting re-raise with the record left as it was.  In the
background execution path, `_run_gepa_sync` catches every exception from
`run_gepa` and sets the record to status `error` with a message describing
the failure (without re-raising). -/
theorem error_status_on_failure :
    (∀ (env : RunEnv) (cfg : GepaConfig) (csv_file_id : Nat) (store : ProgressStore) (e : String),
       (run_gepa env cfg csv_file_id store).2 = .error e →
       ∃ r, get_progress (run_gepa_sync env (some cfg) cfg.id csv_file_id store) cfg.id = some r
         ∧ r.status = "error" ∧ r.message = "Optimization failed: " ++ e)
    ∧ (∀ (env : RunEnv) (cfg : GepaConfig) (csv_file_id : Nat) (store : ProgressStore)
         (csv : CSVFile) (base : Prompt) (jcs : List JudgeConfig)
         (fcs : List FunctionEvalConfig) (e : String),
       validate_phase env cfg csv_file_id = .ok (csv, base, jcs, fcs) →
       env.optimize_result = .error e →
       (run_gepa env cfg csv_file_id store).2 = .error e
       ∧ ∃ r, get_progress (run_gepa env cfg csv_file_id store).1 cfg.id = some r
           ∧ r.status = "error" ∧ r.message = "Optimization failed: " ++ e) := by
  constructor
  · intro env cfg csvId store e hrun
    unfold run_gepa_sync
    rcases hr : run_gepa env cfg csvId store with ⟨s, res⟩
    rw [hr] at hrun
    cases res with
    | ok a => cases hrun
    | error e' =>
      have he : e' = e := by
        injection hrun
      subst he
      dsimp only
      rw [hr]
      exact get_progress_set_error s cfg.id _
  · intro env cfg csvId store csv base jcs fcs e hval hopt
    unfold run_gepa
    dsimp only
    rw [hval]
    dsimp only
    rw [hopt]
    exact ⟨rfl, get_progress_set_error _ _ _⟩

/-- Witness for C5: part (1) at the missing-CSV validating failure, part
(2) at a failing `gepa.optimize`. -/
theorem error_status_on_failure_witness :
    (∃ r, get_progress (run_gepa_sync wEnvNoCsv (some wConfig) wConfig.id 3 []) wConfig.id = some r
       ∧ r.status = "error" ∧ r.message = "Optimization failed: " ++ "CSV file 3 not found")
    ∧ ((run_gepa wEnvOptFail wConfig 3 []).2 = .error "search blew up"
       ∧ ∃ r, get_progress (run_gepa wEnvOptFail wConfig 3 []).1 wConfig.id = some r
           ∧ r.status = "error" ∧ r.message = "Optimization failed: " ++ "search blew up") :=
  ⟨error_status_on_failure.1 wEnvNoCsv wConfig 3 [] "CSV file 3 not found" rfl,
   error_status_on_failure.2 wEnvOptFail wConfig 3 [] wCsv wBasePrompt [] [wFn]
     "search blew up" rfl rfl⟩

/-! ## Claim C4 (corrected) -/

/-- Counterexample to C4 as stated: the search algorithm's `best_candidate`
holds an *empty* system prompt, so the fallback to `candidate` chooses
`"P"` — but the final-validation `evaluate` runs on `result.best_candidate`
(the empty prompt, scoring 0), not the chosen candidate (which scores 1).
The run completes, persisting `"P"` with reported score 0. -/
theorem final_score_uses_best_candidate_counterexample :
    choose_best_prompt { best_candidate := some [("system_prompt", "")],
                         candidate := some [("system_prompt", "P")] } = "P"
    ∧ (run_gepa wEnvRun wConfig 3 []).2.toOption.map
        (fun r => (r.best_prompt, r.new_prompt_id)) = some ("P", 42)
    ∧ (run_gepa wEnvRun wConfig 3 []).2.toOption.map (fun r => r.score) = some 0
    ∧ (EvalsBackedAdapter.evaluate wEnvRun.llm
        (adapter_of wConfig wCsv wBasePrompt [] [wFn]) (valset_of wEnvRun)
        [("system_prompt", "P")] false 0 []).2.toOption.map
          (fun b => mean_scores b.scores) = some 1
    ∧ (0 : ℚ) ≠ 1 := by
  have h1 : (run_gepa wEnvRun wConfig 3 []).2 =
      .ok { best_prompt := "P", new_prompt_id := 42, score := mean_scores [0],
            logs := "Optimization completed. Best score: " ++ fmt3 (mean_scores [0]) } := rfl
  have h2 : (EvalsBackedAdapter.evaluate wEnvRun.llm
      (adapter_of wConfig wCsv wBasePrompt [] [wFn]) (valset_of wEnvRun)
      [("system_prompt", "P")] false 0 []).2 =
      .ok { scores := [mean_scores [1]], outputs := ["out"], trajectories := [] } := rfl
  refine ⟨rfl, ?_, ?_, ?_, by norm_num⟩
  · rw [h1]
    rfl
  · rw [h1]
    show some (mean_scores [0]) = some 0
    norm_num [mean_scores]
  · rw [h2]
    show some (mean_scores [mean_scores [(1 : ℚ)]]) = some 1
    norm_num [mean_scores]

/-- Claim C4 (amended): `run_gepa` takes the algorithm's reported best
candidate, falling back to its current candidate when no distinct best was
tracked, and fails with a structural error when no usable candidate text
can be extracted; but the final reported score is computed by re-running
`evaluate` on the validation set (trace capture off) with
`result.best_candidate` — not with the fallback-chosen candidate — and
equals the arithmetic mean of the scores that call returns. -/
theorem final_score_from_best_candidate :
    (∀ (env : RunEnv) (cfg : GepaConfig) (csvId : Nat) (store : ProgressStore)
       (csv : CSVFile) (base : Prompt) (jcs : List JudgeConfig)
       (fcs : List FunctionEvalConfig) (res : GepaResult) (r : RunResult),
       validate_phase env cfg csvId = .ok (csv, base, jcs, fcs) →
       env.optimize_result = .ok res →
       (run_gepa env cfg csvId store).2 = .ok r →
       r.best_prompt = choose_best_prompt res
       ∧ choose_best_prompt res ≠ ""
       ∧ ∃ b : EvaluationBatch,
           (evaluate_call env.llm (adapter_of cfg csv base jcs fcs) (valset_of env)
             res.best_candidate false 0 []).2 = .ok b
           ∧ r.score = mean_scores b.scores)
    ∧ (∀ (env : RunEnv) (cfg : GepaConfig) (csvId : Nat) (store : ProgressStore)
         (csv : CSVFile) (base : Prompt) (jcs : List JudgeConfig)
         (fcs : List FunctionEvalConfig) (res : GepaResult),
       validate_phase env cfg csvId = .ok (csv, base, jcs, fcs) →
       env.optimize_result = .ok res →
       choose_best_prompt res = "" →
       (run_gepa env cfg csvId store).2 =
         .error "GEPA optimization did not produce a valid prompt - could not find system_prompt in result") := by
  constructor
  · intro env cfg csvId store csv base jcs fcs res r hval hopt hrun
    unfold run_gepa at hrun
    dsimp only at hrun
    rw [hval] at hrun
    dsimp only at hrun
    rw [hopt] at hrun
    dsimp only at hrun
    by_cases hbp : choose_best_prompt res = ""
    · rw [if_pos hbp] at hrun
      cases hrun
    · rw [if_neg hbp] at hrun
      by_cases hsp : pyStrip (choose_best_prompt res) = ""
      · rw [if_pos hsp] at hrun
        cases hrun
      · rw [if_neg hsp] at hrun
        rw [evaluate_call_snd_congr env.llm (adapter_of cfg csv base jcs fcs) (valset_of env)
          res.best_candidate false 0 0 _ []] at hrun
        cases hev : (evaluate_call env.llm (adapter_of cfg csv base jcs fcs) (valset_of env)
            res.best_candidate false 0 []).2 with
        | error e =>
          rw [hev] at hrun
          cases hrun
        | ok b =>
          rw [hev] at hrun
          dsimp only at hrun
          obtain ⟨root, nid, saved, hroot, hper, hsp2, hr⟩ :=
            persist_phase_ok env cfg csvId base (choose_best_prompt res)
              (mean_scores b.scores) _ r hrun
          refine ⟨?_, hbp, b, rfl, ?_⟩
          · rw [hr]
          · rw [hr]
  · intro env cfg csvId store csv base jcs fcs res hval hopt hbp
    unfold run_gepa
    dsimp only
    rw [hval]
    dsimp only
    rw [hopt]
    dsimp only
    rw [if_pos hbp]

/-- The search result in which no candidate carries any text. -/
def wEnvOptEmpty : RunEnv :=
  { wEnvRun with optimize_result := .ok { best_candidate := none, candidate := none } }

/-- Witness for C4 at the shared concrete run. -/
theorem final_score_from_best_candidate_witness :
    (((run_gepa wEnvRun wConfig 3 []).2 =
        .ok { best_prompt := "P", new_prompt_id := 42, score := mean_scores [0],
              logs := "Optimization completed. Best score: " ++ fmt3 (mean_scores [0]) })
      ∧ ({ best_prompt := "P", new_prompt_id := 42, score := mean_scores [0],
           logs := "Optimization completed. Best score: " ++ fmt3 (mean_scores [0]) }
            : RunResult).best_prompt =
          choose_best_prompt { best_candidate := some [("system_prompt", "")],
                               candidate := some [("system_prompt", "P")] }
      ∧ choose_best_prompt { best_candidate := some [("system_prompt", "")],
                             candidate := some [("system_prompt", "P")] } ≠ ""
      ∧ ∃ b : EvaluationBatch,
          (evaluate_call wEnvRun.llm (adapter_of wConfig wCsv wBasePrompt [] [wFn])
            (valset_of wEnvRun) (some [("system_prompt", "")]) false 0 []).2 = .ok b
          ∧ ({ best_prompt := "P", new_prompt_id := 42, score := mean_scores [0],
               logs := "Optimization completed. Best score: " ++ fmt3 (mean_scores [0]) }
                : RunResult).score = mean_scores b.scores)
    ∧ (run_gepa wEnvOptEmpty wConfig 3 []).2 =
        .error "GEPA optimization did not produce a valid prompt - could not find system_prompt in result" :=
  ⟨⟨rfl, (final_score_from_best_candidate.1 wEnvRun wConfig 3 [] wCsv wBasePrompt [] [wFn]
      { best_candidate := some [("system_prompt", "")], candidate := some [("system_prompt", "P")] }
      { best_prompt := "P", new_prompt_id := 42, score := mean_scores [0],
        logs := "Optimization completed. Best score: " ++ fmt3 (mean_scores [0]) }
      rfl rfl rfl).1,
    (final_score_from_best_candidate.1 wEnvRun wConfig 3 [] wCsv wBasePrompt [] [wFn]
      { best_candidate := some [("system_prompt", "")], candidate := some [("system_prompt", "P")] }
      { best_prompt := "P", new_prompt_id := 42, score := mean_scores [0],
        logs := "Optimization completed. Best score: " ++ fmt3 (mean_scores [0]) }
      rfl rfl rfl).2.1,
    (final_score_from_best_candidate.1 wEnvRun wConfig 3 [] wCsv wBasePrompt [] [wFn]
      { best_candidate := some [("system_prompt", "")], candidate := some [("system_prompt", "P")] }
      { best_prompt := "P", new_prompt_id := 42, score := mean_scores [0],
        logs := "Optimization completed. Best score: " ++ fmt3 (mean_scores [0]) }
      rfl rfl rfl).2.2⟩,
   final_score_from_best_candidate.2 wEnvOptEmpty wConfig 3 [] wCsv wBasePrompt [] [wFn]
     { best_candidate := none, candidate := none } rfl rfl rfl⟩

/-! ## Claim C7 (corrected) -/

/-- A persistence layer that only accepts a prompt carrying the base
prompt's user-message column (`"b"`), parented to the root (id 1), at
version 3, named after the root — and rejects anything else.  A successful
run through it certifies those are the persisted record's fields. -/
def filterPersist : NewPrompt → Except String (Nat × Option Prompt) := fun np =>
  if np.user_message_column = some "b" ∧ np.parent_prompt_id = some 1 ∧ np.version = 3
      ∧ np.name = "root" then
    .ok (99, some { id := 99, name := np.name, system_prompt := np.system_prompt,
                    user_message_column := np.user_message_column, csv_file_id := np.csv_file_id,
                    parent_prompt_id := np.parent_prompt_id, version := np.version,
                    commit_message := np.commit_message })
  else .error "unexpected prompt"

def wEnvRun7 : RunEnv :=
  { wEnvRun with
    optimize_result := .ok { best_candidate := some [("system_prompt", "P")], candidate := none },
    persist := filterPersist }

/-- Counterexample to C7 as stated: the base prompt (id 2) is a non-root
version whose user-message column `"b"` differs from the root's `"a"`; the
run succeeds through a persistence layer that only accepts a prompt whose
user-message column is `"b"` — so the new version inherited its
user-message column from the base prompt, not from the root. -/
theorem user_message_column_from_base_counterexample :
    (run_gepa wEnvRun7 wConfig 3 []).2.toOption.map (fun r => r.new_prompt_id) = some 99
    ∧ get_root_prompt_id wEnvRun7.prompts wConfig.base_prompt_id = 1
    ∧ find_prompt wEnvRun7.prompts 1 = some wRootPrompt
    ∧ get_next_prompt_version wEnvRun7.prompts 1 = 3
    ∧ (mk_new_prompt wRootPrompt 1 3 wConfig 3 wBasePrompt (pyStrip "P")
        (mean_scores [mean_scores [(1 : ℚ)]])).user_message_column = some "b"
    ∧ wRootPrompt.user_message_column = some "a"
    ∧ wBasePrompt.user_message_column = some "b"
    ∧ (some "b" : Option String) ≠ some "a" := by
  have h7 : (run_gepa wEnvRun7 wConfig 3 []).2 =
      .ok { best_prompt := "P", new_prompt_id := 99,
            score := mean_scores [mean_scores [(1 : ℚ)]],
            logs := "Optimization completed. Best score: " ++
              fmt3 (mean_scores [mean_scores [(1 : ℚ)]]) } := rfl
  refine ⟨?_, rfl, rfl, rfl, rfl, rfl, rfl, by decide⟩
  rw [h7]
  rfl

/-- One unfolding step of the phase-1 chain-building loop. -/
theorem root_chain_ids_succ (db : List Prompt) (ids : List Nat) (current fuel : Nat) :
    root_chain_ids db ids current (fuel + 1) =
      if ids.contains current then .inl (ids.headD 0)
      else match find_prompt db current with
        | none => .inr (ids ++ [current])
        | some parent =>
          if pyTruthyNat parent.parent_prompt_id then
            root_chain_ids db (ids ++ [current]) (parent.parent_prompt_id.getD 0) fuel
          else .inr (ids ++ [current]) := rfl

/-- Restricting the prompt table to a set of ids containing `i` does not
change the result of looking `i` up. -/
theorem find_prompt_filter_ids (db : List Prompt) (ids : List Nat) (i : Nat)
    (hin : ids.contains i = true) :
    find_prompt (db.filter (fun p => ids.contains p.id)) i = find_prompt db i := by
  unfold find_prompt
  induction db with
  | nil => rfl
  | cons p db ih =>
    by_cases hpi : (p.id == i) = true
    · have hpid : p.id = i := by simpa using hpi
      have hin2 : ids.contains p.id = true := by rw [hpid]; exact hin
      rw [List.filter_cons_of_pos (p := fun q => ids.contains q.id) (a := p) hin2,
          List.find?_cons_of_pos (l := List.filter (fun q => ids.contains q.id) db) hpi,
          List.find?_cons_of_pos (l := db) hpi]
    · by_cases hq : ids.contains p.id = true
      · rw [List.filter_cons_of_pos (p := fun q => ids.contains q.id) (a := p) hq,
            List.find?_cons_of_neg (l := List.filter (fun q => ids.contains q.id) db)
              (by simp [hpi]),
            List.find?_cons_of_neg (l := db) (by simp [hpi])]
        exact ih
      · rw [List.filter_cons_of_neg (p := fun q => ids.contains q.id) (a := p)
              (by simpa using hq),
            List.find?_cons_of_neg (l := db) (by simp [hpi])]
        exact ih

/-- Claim C7 (amended): for a base prompt that is a non-root version of a
well-formed chain (its parent is the chain's parentless root),
`get_root_prompt_id` resolves to the root — not the base — and the new
prompt version is parented to that root, numbered one plus the maximum
version previously seen in the root's chain (defaulting to 1 when the chain
is empty), inherits its *name* from the root, but inherits its
user-message-column from the base prompt itself, not from the root. -/
theorem new_version_fields (db : List Prompt) (base root : Prompt)
    (hbase : find_prompt db base.id = some base)
    (hparent : base.parent_prompt_id = some root.id)
    (hroot0 : root.id ≠ 0)
    (hrootne : root.id ≠ base.id)
    (hroot : find_prompt db root.id = some root)
    (hrootparent : root.parent_prompt_id = none) :
    get_root_prompt_id db base.id = root.id
    ∧ ∀ (cfg : GepaConfig) (csvId : Nat) (bp : String) (score : ℚ),
        (mk_new_prompt root root.id (get_next_prompt_version db root.id) cfg csvId base
            bp score).parent_prompt_id = some root.id
        ∧ (mk_new_prompt root root.id (get_next_prompt_version db root.id) cfg csvId base
            bp score).version =
            ((db.filter (fun p => p.parent_prompt_id == some root.id || p.id == root.id)).map
              (fun p => p.version)).foldr max 0 + 1
        ∧ (mk_new_prompt root root.id (get_next_prompt_version db root.id) cfg csvId base
            bp score).name = root.name
        ∧ (mk_new_prompt root root.id (get_next_prompt_version db root.id) cfg csvId base
            bp score).user_message_column = base.user_message_column := by
  constructor
  · unfold get_root_prompt_id
    rw [hbase]
    try dsimp only
    rw [hparent]
    dsimp only [Option.getD]
    have htr : pyTruthyNat (some root.id) = true := by
      simp [pyTruthyNat, hroot0]
    rw [htr, if_pos rfl]
    rw [show (99 : Nat) = 98 + 1 from rfl, root_chain_ids_succ]
    have hc1 : ([base.id].contains root.id) = false := by
      simp [hrootne]
    rw [hc1]
    rw [hroot]
    try dsimp only
    rw [hrootparent]
    dsimp only [pyTruthyNat]
    rw [if_neg (by simp)]
    rw [if_neg (by simp)]
    try dsimp only
    have hbasemem : base ∈ db.filter (fun p => ([base.id] ++ [root.id]).contains p.id) := by
      refine List.mem_filter.2 ⟨List.mem_of_find?_eq_some hbase, by simp⟩
    obtain ⟨k, hk⟩ : ∃ k,
        (db.filter (fun p => ([base.id] ++ [root.id]).contains p.id)).length = k + 1 := by
      have := List.length_pos.2 (List.ne_nil_of_mem hbasemem)
      exact ⟨(db.filter (fun p => ([base.id] ++ [root.id]).contains p.id)).length - 1, by omega⟩
    rw [hk, root_scan_succ, find_prompt_filter_ids db _ base.id (by simp), hbase]
    try dsimp only
    rw [show ([] : List Nat).contains base.id = false from rfl]
    try dsimp only
    rw [hparent]
    dsimp only [Option.getD]
    rw [htr, if_neg (by simp), if_pos rfl, root_scan_succ,
        find_prompt_filter_ids db _ root.id (by simp), hroot]
    try dsimp only
    rw [show [base.id].contains root.id = false from hc1]
    try dsimp only
    rw [hrootparent]
    dsimp only [pyTruthyNat]
    rw [if_neg (by simp), if_neg (by simp)]
  · intro cfg csvId bp score
    exact ⟨rfl, rfl, rfl, rfl⟩

/-- Witness for C7 at the concrete two-element chain. -/
theorem new_version_fields_witness :
    get_root_prompt_id [wRootPrompt, wBasePrompt] wBasePrompt.id = wRootPrompt.id
    ∧ ((mk_new_prompt wRootPrompt wRootPrompt.id
          (get_next_prompt_version [wRootPrompt, wBasePrompt] wRootPrompt.id) wConfig 3
          wBasePrompt "P" 0).parent_prompt_id = some wRootPrompt.id
      ∧ (mk_new_prompt wRootPrompt wRootPrompt.id
          (get_next_prompt_version [wRootPrompt, wBasePrompt] wRootPrompt.id) wConfig 3
          wBasePrompt "P" 0).version =
          (([wRootPrompt, wBasePrompt].filter (fun p =>
              p.parent_prompt_id == some wRootPrompt.id || p.id == wRootPrompt.id)).map
            (fun p => p.version)).foldr max 0 + 1
      ∧ (mk_new_prompt wRootPrompt wRootPrompt.id
          (get_next_prompt_version [wRootPrompt, wBasePrompt] wRootPrompt.id) wConfig 3
          wBasePrompt "P" 0).name = wRootPrompt.name
      ∧ (mk_new_prompt wRootPrompt wRootPrompt.id
          (get_next_prompt_version [wRootPrompt, wBasePrompt] wRootPrompt.id) wConfig 3
          wBasePrompt "P" 0).user_message_column = wBasePrompt.user_message_column) :=
  ⟨(new_version_fields [wRootPrompt, wBasePrompt] wBasePrompt wRootPrompt
      rfl rfl (by decide) (by decide) rfl rfl).1,
   (new_version_fields [wRootPrompt, wBasePrompt] wBasePrompt wRootPrompt
      rfl rfl (by decide) (by decide) rfl rfl).2 wConfig 3 "P" 0⟩

/-! ## Claim C8 -/

/-- Claim C8: after persisting, `run_gepa` re-reads the stored record and
compares the system-prompt text with the text it intended to persist:
(1) a missing read-back record raises; (2) any content mismatch raises;
(3) whenever the persisting phase returns successfully, the read-back
record existed and its content equals the intended text exactly. -/
theorem persistence_roundtrip_verified :
    (∀ (env : RunEnv) (cfg : GepaConfig) (csvId : Nat) (base : Prompt) (bp : String)
       (score : ℚ) (s : ProgressStore) (root : Prompt) (nid : Nat),
       find_prompt env.prompts (get_root_prompt_id env.prompts cfg.base_prompt_id) = some root →
       env.persist (mk_new_prompt root (get_root_prompt_id env.prompts cfg.base_prompt_id)
         (get_next_prompt_version env.prompts (get_root_prompt_id env.prompts cfg.base_prompt_id))
         cfg csvId base (pyStrip bp) score) = .ok (nid, none) →
       (persist_phase env cfg csvId base bp score s).2 =
         .error "Failed to retrieve saved prompt from database")
    ∧ (∀ (env : RunEnv) (cfg : GepaConfig) (csvId : Nat) (base : Prompt) (bp : String)
         (score : ℚ) (s : ProgressStore) (root : Prompt) (nid : Nat) (saved : Prompt),
       find_prompt env.prompts (get_root_prompt_id env.prompts cfg.base_prompt_id) = some root →
       env.persist (mk_new_prompt root (get_root_prompt_id env.prompts cfg.base_prompt_id)
         (get_next_prompt_version env.prompts (get_root_prompt_id env.prompts cfg.base_prompt_id))
         cfg csvId base (pyStrip bp) score) = .ok (nid, some saved) →
       saved.system_prompt ≠ pyStrip bp →
       (persist_phase env cfg csvId base bp score s).2 =
         .error "Failed to save optimized prompt content correctly - content mismatch detected")
    ∧ (∀ (env : RunEnv) (cfg : GepaConfig) (csvId : Nat) (base : Prompt) (bp : String)
         (score : ℚ) (s : ProgressStore) (r : RunResult),
       (persist_phase env cfg csvId base bp score s).2 = .ok r →
       ∃ root nid saved,
         find_prompt env.prompts (get_root_prompt_id env.prompts cfg.base_prompt_id) = some root
         ∧ env.persist (mk_new_prompt root (get_root_prompt_id env.prompts cfg.base_prompt_id)
             (get_next_prompt_version env.prompts
               (get_root_prompt_id env.prompts cfg.base_prompt_id))
             cfg csvId base (pyStrip bp) score) = .ok (nid, some saved)
         ∧ saved.system_prompt = pyStrip bp
         ∧ r.new_prompt_id = nid ∧ r.best_prompt = bp ∧ r.score = score) := by
  refine ⟨?_, ?_, ?_⟩
  · intro env cfg csvId base bp score s root nid hroot hper
    unfold persist_phase
    dsimp only
    rw [hroot]
    dsimp only
    rw [hper]
  · intro env cfg csvId base bp score s root nid saved hroot hper hne
    unfold persist_phase
    dsimp only
    rw [hroot]
    dsimp only
    rw [hper]
    dsimp only
    rw [if_pos (by simp [hne])]
  · intro env cfg csvId base bp score s r h
    obtain ⟨root, nid, saved, hroot, hper, hsp, hr⟩ :=
      persist_phase_ok env cfg csvId base bp score s r h
    exact ⟨root, nid, saved, hroot, hper, hsp, by rw [hr], by rw [hr], by rw [hr]⟩

def nonePersist : NewPrompt → Except String (Nat × Option Prompt) := fun _ => .ok (42, none)

def corruptPersist : NewPrompt → Except String (Nat × Option Prompt) := fun np =>
  .ok (42, some { id := 42, name := np.name, system_prompt := np.system_prompt ++ "!",
                  user_message_column := np.user_message_column, csv_file_id := np.csv_file_id,
                  parent_prompt_id := np.parent_prompt_id, version := np.version,
                  commit_message := np.commit_message })

def wEnvNoRB : RunEnv := { wEnvRun with persist := nonePersist }

def wEnvCorrupt : RunEnv := { wEnvRun with persist := corruptPersist }

/-- Witness for C8: a read-back that returns nothing, a deliberately
corrupted write, and a faithful write. -/
theorem persistence_roundtrip_verified_witness :
    (persist_phase wEnvNoRB wConfig 3 wBasePrompt "P" 0 []).2 =
      .error "Failed to retrieve saved prompt from database"
    ∧ (persist_phase wEnvCorrupt wConfig 3 wBasePrompt "P" 0 []).2 =
      .error "Failed to save optimized prompt content correctly - content mismatch detected"
    ∧ ∃ root nid saved,
        find_prompt wEnvRun.prompts (get_root_prompt_id wEnvRun.prompts wConfig.base_prompt_id)
          = some root
        ∧ wEnvRun.persist (mk_new_prompt root
            (get_root_prompt_id wEnvRun.prompts wConfig.base_prompt_id)
            (get_next_prompt_version wEnvRun.prompts
              (get_root_prompt_id wEnvRun.prompts wConfig.base_prompt_id))
            wConfig 3 wBasePrompt (pyStrip "P") 0) = .ok (nid, some saved)
        ∧ saved.system_prompt = pyStrip "P"
        ∧ ({ best_prompt := "P", new_prompt_id := 42, score := 0,
             logs := "Optimization completed. Best score: " ++ fmt3 0 } : RunResult).new_prompt_id
            = nid
        ∧ ({ best_prompt := "P", new_prompt_id := 42, score := 0,
             logs := "Optimization completed. Best score: " ++ fmt3 0 } : RunResult).best_prompt
            = "P"
        ∧ ({ best_prompt := "P", new_prompt_id := 42, score := 0,
             logs := "Optimization completed. Best score: " ++ fmt3 0 } : RunResult).score
            = 0 :=
  ⟨persistence_roundtrip_verified.1 wEnvNoRB wConfig 3 wBasePrompt "P" 0 [] wRootPrompt 42
     rfl rfl,
   persistence_roundtrip_verified.2.1 wEnvCorrupt wConfig 3 wBasePrompt "P" 0 [] wRootPrompt 42
     { id := 42, name := "root",
       system_prompt := pyStrip "P" ++ "!", user_message_column := some "b", csv_file_id := 3,
       parent_prompt_id := some 1, version := 3,
       commit_message := "GEPA optimized via " ++ wConfig.name ++ " (eval score: " ++ fmt3 0 ++ ")" }
     rfl rfl (by decide),
   persistence_roundtrip_verified.2.2 wEnvRun wConfig 3 wBasePrompt "P" 0 []
     { best_prompt := "P", new_prompt_id := 42, score := 0,
       logs := "Optimization completed. Best score: " ++ fmt3 0 } rfl⟩

end Evaluizer
